import Mathlib

/-!
Verification of the 10E relief calculator.

Shallow embedding of the three Python modules
(`form10e_relief.py`, `form10e_relief_advanced.py`, `tenE_relief.py`).

Modelling conventions:
* Monetary amounts and incomes are rationals (`ℚ`), the exact-arithmetic
  idealisation of the source's floats.
* Python's `round(x)` / `round(x, 0)` is round-half-to-even to an integer,
  modelled by `roundHalfEven`; `round(x, 2)` is modelled by `round2`.
* Python dictionaries keyed by fiscal-year strings are modelled as
  functions `String → Option _`.
* `raise ValueError` is modelled with `Except TaxError`; the two error
  conditions of the program are the constructors of `TaxError`.
-/

/-- Round a rational to the nearest integer, ties going to the even
integer — the behaviour of Python's `round(x)` on exact values. -/
def roundHalfEven (q : ℚ) : ℤ :=
  if q - (⌊q⌋ : ℚ) < 1/2 then ⌊q⌋
  else if 1/2 < q - (⌊q⌋ : ℚ) then ⌊q⌋ + 1
  else if ⌊q⌋ % 2 = 0 then ⌊q⌋ else ⌊q⌋ + 1

/-- Round a rational to two decimal places, ties to even —
Python's `round(x, 2)`. -/
def round2 (q : ℚ) : ℚ :=
  ((roundHalfEven (q * 100) : ℤ) : ℚ) / 100

theorem roundHalfEven_eq_of_lt {q : ℚ} (n : ℤ) (h1 : (n : ℚ) ≤ q)
    (h2 : q < (n : ℚ) + 1/2) : roundHalfEven q = n := by
  have hf : ⌊q⌋ = n := Int.floor_eq_iff.mpr ⟨h1, by linarith⟩
  unfold roundHalfEven
  rw [hf, if_pos (by linarith)]

theorem roundHalfEven_eq_of_gt {q : ℚ} (n : ℤ) (h1 : (n : ℚ) + 1/2 < q)
    (h2 : q < (n : ℚ) + 1) : roundHalfEven q = n + 1 := by
  have hf : ⌊q⌋ = n := Int.floor_eq_iff.mpr ⟨by linarith, by linarith⟩
  unfold roundHalfEven
  rw [hf, if_neg (by linarith), if_pos (by linarith)]

theorem roundHalfEven_zero : roundHalfEven 0 = 0 := by
  have := roundHalfEven_eq_of_lt (q := 0) 0 (by norm_num) (by norm_num)
  simpa using this

theorem floor_le_roundHalfEven (q : ℚ) : ⌊q⌋ ≤ roundHalfEven q := by
  unfold roundHalfEven
  split_ifs <;> omega

theorem roundHalfEven_le_floor_add_one (q : ℚ) : roundHalfEven q ≤ ⌊q⌋ + 1 := by
  unfold roundHalfEven
  split_ifs <;> omega

theorem roundHalfEven_mono {a b : ℚ} (h : a ≤ b) :
    roundHalfEven a ≤ roundHalfEven b := by
  have hf : ⌊a⌋ ≤ ⌊b⌋ := Int.floor_le_floor h
  rcases eq_or_lt_of_le hf with he | hl
  · unfold roundHalfEven
    rw [← he]
    have hab : a - (⌊a⌋ : ℚ) ≤ b - (⌊a⌋ : ℚ) := by linarith
    split_ifs <;> first | omega | linarith
  · calc roundHalfEven a ≤ ⌊a⌋ + 1 := roundHalfEven_le_floor_add_one a
      _ ≤ ⌊b⌋ := by omega
      _ ≤ roundHalfEven b := floor_le_roundHalfEven b

theorem roundHalfEven_nonneg {q : ℚ} (h : 0 ≤ q) : 0 ≤ roundHalfEven q :=
  le_trans (Int.le_floor.mpr (by exact_mod_cast h)) (floor_le_roundHalfEven q)

theorem abs_sub_roundHalfEven (q : ℚ) : |q - (roundHalfEven q : ℚ)| ≤ 1/2 := by
  have h0 : (⌊q⌋ : ℚ) ≤ q := Int.floor_le q
  have h1 : q < (⌊q⌋ : ℚ) + 1 := Int.lt_floor_add_one q
  unfold roundHalfEven
  split_ifs with ha hb hc <;> rw [abs_le] <;> constructor <;> push_cast <;> linarith

theorem abs_sub_round2 (q : ℚ) : |q - round2 q| ≤ 1/200 := by
  have h := abs_sub_roundHalfEven (q * 100)
  unfold round2
  have he : q - ((roundHalfEven (q * 100) : ℤ) : ℚ) / 100
      = (q * 100 - ((roundHalfEven (q * 100) : ℤ) : ℚ)) / 100 := by ring
  rw [he, abs_div, show |(100:ℚ)| = 100 by norm_num]
  linarith

/-!
Generic progressive-slab machinery shared by all three modules.

A slab is an `(upperBound, marginalRate)` pair; an upper bound of `none`
models the source's `float("inf")` final bound.
-/

/-- Python's `min(ti, limit)` where `limit` may be `float("inf")` (`none`). -/
def minLim (ti : ℚ) : Option ℚ → ℚ
  | none => ti
  | some l => min ti l

/-- The taxable portion `max(0, min(ti, limit) - prev)` of one slab;
`prev = none` models a previous bound of `float("inf")` (then the portion
is zero, as `min(ti, limit) - inf = -inf` in the source). -/
def portionOf (ti : ℚ) (prev limit : Option ℚ) : ℚ :=
  match prev with
  | none => 0
  | some p => max 0 (minLim ti limit - p)

/-- The source's slab loop: walk the table keeping the previous bound,
accumulate `portion × rate`, and break as soon as `ti ≤ limit`
(a `none` = infinite bound always breaks). -/
def slab_walk (ti : ℚ) : ℚ → List (Option ℚ × ℚ) → ℚ
  | _, [] => 0
  | prev, (none, rate) :: _ => max 0 (ti - prev) * rate
  | prev, (some l, rate) :: rest =>
    if ti ≤ l then max 0 (min ti l - prev) * rate
    else max 0 (min ti l - prev) * rate + slab_walk ti l rest

/-- The same loop without the early break: every slab of the table is
evaluated, the previous bound always advancing to the slab's bound. -/
def slab_full (ti : ℚ) : Option ℚ → List (Option ℚ × ℚ) → ℚ
  | _, [] => 0
  | prev, (limit, rate) :: rest =>
    portionOf ti prev limit * rate + slab_full ti limit rest

/-- Bound comparison with `none` as `+∞`. -/
def boundLe : Option ℚ → Option ℚ → Bool
  | _, none => true
  | none, some _ => false
  | some p, some l => decide (p ≤ l)

/-- The table's upper bounds are monotonically increasing starting from
`prev` (§4.1 step 1 of the spec's definition of a slab table). -/
def sortedFrom : Option ℚ → List (Option ℚ × ℚ) → Bool
  | _, [] => true
  | prev, (limit, _) :: rest => boundLe prev limit && sortedFrom limit rest

/-- `ti` does not exceed the bound (`none` = `+∞`). -/
def tiBelow (ti : ℚ) : Option ℚ → Bool
  | none => true
  | some p => decide (ti ≤ p)

/-- All marginal rates of the table are non-negative. -/
def ratesNonneg : List (Option ℚ × ℚ) → Bool
  | [] => true
  | (_, rate) :: rest => decide (0 ≤ rate) && ratesNonneg rest

theorem slab_full_eq_zero (ti : ℚ) :
    ∀ (slabs : List (Option ℚ × ℚ)) (prev : Option ℚ),
      tiBelow ti prev = true → sortedFrom prev slabs = true →
      slab_full ti prev slabs = 0 := by
  intro slabs
  induction slabs with
  | nil => intro prev _ _; rfl
  | cons s rest ih =>
    intro prev hti hs
    obtain ⟨limit, rate⟩ := s
    rw [sortedFrom, Bool.and_eq_true] at hs
    have hport : portionOf ti prev limit = 0 := by
      cases prev with
      | none => rfl
      | some p =>
        have hp : ti ≤ p := by simpa [tiBelow] using hti
        have hm : minLim ti limit ≤ ti := by
          cases limit <;> simp [minLim]
        simp only [portionOf]
        exact max_eq_left (by linarith)
    have hnext : tiBelow ti limit = true := by
      cases prev with
      | none =>
        cases limit with
        | none => rfl
        | some l => simp [boundLe] at hs
      | some p =>
        cases limit with
        | none => rfl
        | some l =>
          have hp : ti ≤ p := by simpa [tiBelow] using hti
          have hpl : p ≤ l := by simpa [boundLe] using hs.1
          simp [tiBelow]; linarith
    rw [slab_full, hport, ih limit hnext hs.2]
    ring

theorem slab_walk_eq_full (ti : ℚ) :
    ∀ (slabs : List (Option ℚ × ℚ)) (prev : ℚ),
      sortedFrom (some prev) slabs = true →
      slab_walk ti prev slabs = slab_full ti (some prev) slabs := by
  intro slabs
  induction slabs with
  | nil => intro prev _; rfl
  | cons s rest ih =>
    intro prev hs
    obtain ⟨limit, rate⟩ := s
    rw [sortedFrom, Bool.and_eq_true] at hs
    cases limit with
    | none =>
      rw [slab_walk, slab_full,
        slab_full_eq_zero ti rest none rfl hs.2]
      simp [portionOf, minLim]
    | some l =>
      rw [slab_walk, slab_full]
      by_cases hle : ti ≤ l
      · rw [if_pos hle,
          slab_full_eq_zero ti rest (some l) (by simpa [tiBelow] using hle) hs.2]
        simp [portionOf, minLim]
      · rw [if_neg hle, ih l hs.2]
        simp [portionOf, minLim]

theorem portionOf_nonneg (ti : ℚ) (prev limit : Option ℚ) :
    0 ≤ portionOf ti prev limit := by
  cases prev with
  | none => exact le_refl 0
  | some p => exact le_max_left 0 _

theorem portionOf_mono {t1 t2 : ℚ} (h : t1 ≤ t2) (prev limit : Option ℚ) :
    portionOf t1 prev limit ≤ portionOf t2 prev limit := by
  cases prev with
  | none => exact le_refl 0
  | some p =>
    have hm : minLim t1 limit ≤ minLim t2 limit := by
      cases limit with
      | none => exact h
      | some l => exact min_le_min h (le_refl l)
    exact max_le_max (le_refl 0) (by linarith)

theorem slab_full_nonneg (ti : ℚ) :
    ∀ (slabs : List (Option ℚ × ℚ)) (prev : Option ℚ),
      ratesNonneg slabs = true → 0 ≤ slab_full ti prev slabs := by
  intro slabs
  induction slabs with
  | nil => intro prev _; exact le_refl 0
  | cons s rest ih =>
    intro prev hr
    obtain ⟨limit, rate⟩ := s
    rw [ratesNonneg, Bool.and_eq_true, decide_eq_true_eq] at hr
    rw [slab_full]
    have := mul_nonneg (portionOf_nonneg ti prev limit) hr.1
    have := ih limit hr.2
    linarith

theorem slab_full_mono {t1 t2 : ℚ} (h : t1 ≤ t2) :
    ∀ (slabs : List (Option ℚ × ℚ)) (prev : Option ℚ),
      ratesNonneg slabs = true →
      slab_full t1 prev slabs ≤ slab_full t2 prev slabs := by
  intro slabs
  induction slabs with
  | nil => intro prev _; exact le_refl 0
  | cons s rest ih =>
    intro prev hr
    obtain ⟨limit, rate⟩ := s
    rw [ratesNonneg, Bool.and_eq_true, decide_eq_true_eq] at hr
    rw [slab_full, slab_full]
    have h1 := mul_le_mul_of_nonneg_right (portionOf_mono h prev limit) hr.1
    have h2 := ih limit hr.2
    linarith

theorem slab_walk_nonneg (ti : ℚ) (slabs : List (Option ℚ × ℚ))
    (hs : sortedFrom (some 0) slabs = true) (hr : ratesNonneg slabs = true) :
    0 ≤ slab_walk ti 0 slabs := by
  rw [slab_walk_eq_full ti slabs 0 hs]
  exact slab_full_nonneg ti slabs (some 0) hr

theorem slab_walk_mono {t1 t2 : ℚ} (h : t1 ≤ t2) (slabs : List (Option ℚ × ℚ))
    (hs : sortedFrom (some 0) slabs = true) (hr : ratesNonneg slabs = true) :
    slab_walk t1 0 slabs ≤ slab_walk t2 0 slabs := by
  rw [slab_walk_eq_full t1 slabs 0 hs, slab_walk_eq_full t2 slabs 0 hs]
  exact slab_full_mono h slabs (some 0) hr

/-- The post-rebate tax `if ti ≤ thr then 0 else slab_walk ti 0 slabs`
is monotone in `ti` for a sorted, non-negative-rate table. -/
theorem rebated_mono {t1 t2 : ℚ} (h : t1 ≤ t2) (thr : ℚ)
    (slabs : List (Option ℚ × ℚ))
    (hs : sortedFrom (some 0) slabs = true) (hr : ratesNonneg slabs = true) :
    (if t1 ≤ thr then 0 else slab_walk t1 0 slabs) ≤
      (if t2 ≤ thr then 0 else slab_walk t2 0 slabs) := by
  by_cases h1 : t1 ≤ thr
  · by_cases h2 : t2 ≤ thr
    · rw [if_pos h1, if_pos h2]
    · rw [if_pos h1, if_neg h2]
      exact slab_walk_nonneg t2 slabs hs hr
  · by_cases h2 : t2 ≤ thr
    · exact absurd (le_trans h h2) h1
    · rw [if_neg h1, if_neg h2]
      exact slab_walk_mono h slabs hs hr

theorem rebated_nonneg (ti thr : ℚ) (slabs : List (Option ℚ × ℚ))
    (hs : sortedFrom (some 0) slabs = true) (hr : ratesNonneg slabs = true) :
    0 ≤ (if ti ≤ thr then 0 else slab_walk ti 0 slabs) := by
  split_ifs with h1
  · exact le_refl 0
  · exact slab_walk_nonneg ti slabs hs hr

/-- The two error kinds of the program (`raise ValueError` sites):
an arrears-mapping mismatch (`compute_relief` / `compute_10e`) and a
fiscal year with no registered slab table (`tax_old_regime`). -/
inductive TaxError where
  | UnsupportedYear : TaxError
  | ArrearsMismatch : ℚ → ℚ → TaxError
deriving DecidableEq

/-! Embedding of `form10e_relief.py`. -/

namespace Form10e

/-- Old-regime slab table (`SLABS` in `form10e_relief.py`). -/
def SLABS : List (Option ℚ × ℚ) :=
  [(some 250000, 0), (some 500000, 5/100), (some 1000000, 20/100), (none, 30/100)]

/-- `compute_tax` of `form10e_relief.py`: slab walk, 87A rebate zeroing
for incomes up to 5,00,000, then 4% cess and rounding. -/
def compute_tax (taxable_income : ℚ) : ℚ :=
  let tax := slab_walk taxable_income 0 SLABS
  let tax2 := if taxable_income ≤ 500000 then 0 else tax
  ((roundHalfEven (tax2 * (104/100)) : ℤ) : ℚ)

end Form10e

/-! Embedding of `form10e_relief_advanced.py`. -/

namespace Advanced

/-- The `Regime` literal type `"old" | "new"`. -/
inductive Regime where
  | old : Regime
  | new : Regime
deriving DecidableEq

/-- `compute_tax_old`: old-regime slabs, 87A zeroing up to 5,00,000, 4% cess. -/
def compute_tax_old (ti : ℚ) : ℚ :=
  let slabs : List (Option ℚ × ℚ) :=
    [(some 250000, 0), (some 500000, 5/100), (some 1000000, 20/100), (none, 30/100)]
  let tax := slab_walk ti 0 slabs
  let tax2 := if ti ≤ 500000 then 0 else tax
  ((roundHalfEven (tax2 * (104/100)) : ℤ) : ℚ)

/-- `compute_tax_new_legacy`: the FY2023-24 / FY2024-25 new-regime slab
table, simplified 87A zeroing up to 7,00,000, 4% cess. -/
def compute_tax_new_legacy (ti : ℚ) : ℚ :=
  let slabs : List (Option ℚ × ℚ) :=
    [(some 300000, 0), (some 600000, 5/100), (some 900000, 10/100),
     (some 1200000, 15/100), (some 1500000, 20/100), (none, 30/100)]
  let tax := slab_walk ti 0 slabs
  let tax2 := if ti ≤ 700000 then 0 else tax
  ((roundHalfEven (tax2 * (104/100)) : ℤ) : ℚ)

/-- The `tax` value computed by the `if/elif` chain of
`compute_tax_new_2025` (the FY2025-26 piecewise formula). -/
def tax2025val (ti : ℚ) : ℚ :=
  if ti ≤ 400000 then 0
  else if ti ≤ 800000 then (ti - 400000) * (5/100)
  else if ti ≤ 1200000 then 20000 + (ti - 800000) * (10/100)
  else if ti ≤ 1600000 then 60000 + (ti - 1200000) * (15/100)
  else if ti ≤ 2000000 then 120000 + (ti - 1600000) * (20/100)
  else if ti ≤ 2400000 then 200000 + (ti - 2000000) * (25/100)
  else 300000 + (ti - 2400000) * (30/100)

/-- `compute_tax_new_2025`: the piecewise formula followed by 4% cess
and rounding (no rebate rule beyond the formula's zero bracket). -/
def compute_tax_new_2025 (ti : ℚ) : ℚ :=
  ((roundHalfEven (tax2025val ti * (104/100)) : ℤ) : ℚ)

/-- `compute_tax`: dispatch on regime and fiscal year.  Old regime always
uses the old table; the new regime uses the FY2025-26 formula for
`"FY2025-26"` and the legacy table for every other year. -/
def compute_tax (ti : ℚ) (regime : Regime) (fy : String) : ℚ :=
  match regime with
  | .old => compute_tax_old ti
  | .new => if fy = "FY2025-26" then compute_tax_new_2025 ti else compute_tax_new_legacy ti

/-- The `YearData` dataclass: `tax_wo`/`tax_w` default to `0.0` and are
filled in by `compute_relief`. -/
structure YearData where
  fy : String
  base_income : ℚ
  arrears : ℚ
  regime : Regime
  manual_tax_wo : Option ℚ := none
  manual_tax_w : Option ℚ := none
  tax_wo : ℚ := 0
  tax_w : ℚ := 0
deriving DecidableEq

/-- The per-year mutation step of `compute_relief` (lines 110-112):
fill `tax_wo`/`tax_w` from the manual override when present, otherwise
from the tax engine. -/
def fill_year (y : YearData) : YearData :=
  { y with
    tax_wo := match y.manual_tax_wo with
      | some m => m
      | none => compute_tax y.base_income y.regime y.fy
    tax_w := match y.manual_tax_w with
      | some m => m
      | none => compute_tax (y.base_income + y.arrears) y.regime y.fy }

/-- The `"current"` sub-dictionary of the result of `compute_relief`. -/
structure CurrentCalc where
  fy : String
  regime : Regime
  tax_wo : ℚ
  tax_w : ℚ
  delta : ℚ
deriving DecidableEq

/-- The result dictionary of `compute_relief`. -/
structure ReliefResult where
  years : List YearData
  current : CurrentCalc
  relief : ℚ
deriving DecidableEq

/-- `compute_relief` of `form10e_relief_advanced.py`.  The Python function
mutates the caller's `years` records in place; here the mutated list is the
`years` field of the result (in the source, `result["years"]` is that same
mutated list). -/
def compute_relief (receipt_fy : String) (receipt_regime : Regime)
    (current_income_excl_arrears total_arrears : ℚ) (years : List YearData) :
    Except TaxError ReliefResult :=
  let mapped := round2 ((years.map YearData.arrears).sum)
  if round2 total_arrears ≠ mapped then
    .error (.ArrearsMismatch total_arrears mapped)
  else
    let filled := years.map fill_year
    let current_tax_wo := compute_tax current_income_excl_arrears receipt_regime receipt_fy
    let current_tax_w :=
      compute_tax (current_income_excl_arrears + total_arrears) receipt_regime receipt_fy
    let current_delta := current_tax_w - current_tax_wo
    let past_deltas := filled.map (fun y => y.tax_w - y.tax_wo)
    let relief := max 0 ((roundHalfEven (past_deltas.sum - current_delta) : ℤ) : ℚ)
    .ok ⟨filled,
      ⟨receipt_fy, receipt_regime, current_tax_wo, current_tax_w, current_delta⟩,
      relief⟩

end Advanced

/-! Embedding of `tenE_relief.py`. -/

namespace TenE

/-- The old-regime slab table that `SLABS_OLD` maps every registered
fiscal year to (the source repeats this list literal for each year). -/
def OLD_SLABS : List (Option ℚ × ℚ) :=
  [(some 250000, 0), (some 500000, 5/100), (some 1000000, 20/100), (none, 30/100)]

/-- The fiscal years registered in `SLABS_OLD` (and in `REBATE_87A`). -/
def REGISTERED_YEARS : List String :=
  ["FY2019-20", "FY2020-21", "FY2021-22", "FY2022-23", "FY2023-24", "FY2024-25"]

/-- The `SLABS_OLD` dictionary, modelled as a lookup function
(`SLABS_OLD.get(fy)` in the source). -/
def SLABS_OLD (fy : String) : Option (List (Option ℚ × ℚ)) :=
  if fy = "FY2019-20" then some OLD_SLABS
  else if fy = "FY2020-21" then some OLD_SLABS
  else if fy = "FY2021-22" then some OLD_SLABS
  else if fy = "FY2022-23" then some OLD_SLABS
  else if fy = "FY2023-24" then some OLD_SLABS
  else if fy = "FY2024-25" then some OLD_SLABS
  else none

/-- The `REBATE_87A` dictionary: `(threshold, enabled)` per year. -/
def REBATE_87A (fy : String) : Option (ℚ × Bool) :=
  if fy = "FY2019-20" then some (500000, true)
  else if fy = "FY2020-21" then some (500000, true)
  else if fy = "FY2021-22" then some (500000, true)
  else if fy = "FY2022-23" then some (500000, true)
  else if fy = "FY2023-24" then some (500000, true)
  else if fy = "FY2024-25" then some (500000, true)
  else none

/-- `tax_old_regime`: looks up the year's slab table (raising for an
unregistered year — `if not slabs`), walks it, applies the 87A rebate rule
when one is registered (a present `(threshold, flag)` tuple is always
truthy in the source, whatever the flag), then adds 4% cess and rounds. -/
def tax_old_regime (ti : ℚ) (fy : String) : Except TaxError ℚ :=
  match SLABS_OLD fy with
  | none => .error .UnsupportedYear
  | some slabs =>
    if slabs.isEmpty then .error .UnsupportedYear
    else
      let tax := slab_walk ti 0 slabs
      let tax2 := match REBATE_87A fy with
        | some rule => if ti ≤ rule.1 then 0 else tax
        | none => tax
      let cess := tax2 * (4/100)
      .ok ((roundHalfEven (tax2 + cess) : ℤ) : ℚ)

/-- The `Mode` literal type `"manual-tax" | "slab-mode"`. -/
inductive Mode where
  | manual_tax : Mode
  | slab_mode : Mode
deriving DecidableEq

/-- The `YearInput` dataclass. -/
structure YearInput where
  fy : String
  base_taxable_without_arrears : ℚ
  arrears_for_this_year : ℚ
  manual_tax_without_arrears : Option ℚ := none
  manual_tax_with_arrears : Option ℚ := none
deriving DecidableEq

/-- The `TenEInput` dataclass. -/
structure TenEInput where
  receipt_fy : String
  current_year_base_taxable_excl_arrears : ℚ
  arrears_total_received : ℚ
  affected_years : List YearInput
  mode : Mode := .slab_mode
deriving DecidableEq

/-- The `YearCalc` dataclass. -/
structure YearCalc where
  fy : String
  tax_without_arrears : ℚ
  tax_with_arrears : ℚ
  delta : ℚ
deriving DecidableEq

/-- The `TenEResult` dataclass (its `current_year` is always set by
`compute_10e`, so it is modelled as a plain field). -/
structure TenEResult where
  past_years : List YearCalc
  current_year : YearCalc
  relief : ℚ
deriving DecidableEq

/-- `compute_tax_for_year`: the manual override is used only in
`"manual-tax"` mode and only when present; otherwise the slab engine runs. -/
def compute_tax_for_year (fy : String) (taxable : ℚ) (mode : Mode)
    (manual_override : Option ℚ) : Except TaxError ℚ :=
  match mode, manual_override with
  | .manual_tax, some m => .ok m
  | _, _ => tax_old_regime taxable fy

/-- One iteration of the `for y in data.affected_years` loop of
`compute_10e`: both taxes for the year, then the `YearCalc` record. -/
def year_calc (mode : Mode) (y : YearInput) : Except TaxError YearCalc :=
  match compute_tax_for_year y.fy y.base_taxable_without_arrears mode
      y.manual_tax_without_arrears with
  | .error e => .error e
  | .ok tax_wo =>
    match compute_tax_for_year y.fy
        (y.base_taxable_without_arrears + y.arrears_for_this_year) mode
        y.manual_tax_with_arrears with
    | .error e => .error e
    | .ok tax_w => .ok ⟨y.fy, tax_wo, tax_w, tax_w - tax_wo⟩

/-- The whole `for` loop of `compute_10e` (a raise inside the loop
propagates out, abandoning the traversal). -/
def calc_years (mode : Mode) : List YearInput → Except TaxError (List YearCalc)
  | [] => .ok []
  | y :: rest =>
    match year_calc mode y with
    | .error e => .error e
    | .ok c =>
      match calc_years mode rest with
      | .error e => .error e
      | .ok cs => .ok (c :: cs)

/-- `compute_10e` of `tenE_relief.py`: validate the arrears mapping sum,
compute every affected year, compute the receipt year (never with a
manual override), and net the deltas. -/
def compute_10e (data : TenEInput) : Except TaxError TenEResult :=
  let mapped := round2 ((data.affected_years.map YearInput.arrears_for_this_year).sum)
  if round2 data.arrears_total_received ≠ mapped then
    .error (.ArrearsMismatch data.arrears_total_received mapped)
  else
    match calc_years data.mode data.affected_years with
    | .error e => .error e
    | .ok past =>
      match compute_tax_for_year data.receipt_fy
          data.current_year_base_taxable_excl_arrears data.mode none with
      | .error e => .error e
      | .ok cy_tax_wo =>
        match compute_tax_for_year data.receipt_fy
            (data.current_year_base_taxable_excl_arrears + data.arrears_total_received)
            data.mode none with
        | .error e => .error e
        | .ok cy_tax_w =>
          let cy_calc : YearCalc :=
            ⟨data.receipt_fy, cy_tax_wo, cy_tax_w, cy_tax_w - cy_tax_wo⟩
          let past_sum := (past.map YearCalc.delta).sum
          let relief := max 0 ((roundHalfEven (past_sum - cy_calc.delta) : ℤ) : ℚ)
          .ok ⟨past, cy_calc, relief⟩

end TenE

/-! Shared concrete-evaluation helpers for the old-regime engine. -/

theorem form10e_eq_advanced_old (ti : ℚ) :
    Form10e.compute_tax ti = Advanced.compute_tax_old ti := rfl

theorem compute_tax_old_500000 : Advanced.compute_tax_old 500000 = 0 := by
  unfold Advanced.compute_tax_old
  norm_num [slab_walk, min_def, max_def]
  rw [roundHalfEven_zero]

theorem compute_tax_old_600000 : Advanced.compute_tax_old 600000 = 33800 := by
  unfold Advanced.compute_tax_old
  norm_num [slab_walk, min_def, max_def]
  rw [roundHalfEven_eq_of_lt 33800 (by norm_num) (by norm_num)]
  norm_num

theorem compute_tax_old_500001 : Advanced.compute_tax_old 500001 = 13000 := by
  unfold Advanced.compute_tax_old
  norm_num [slab_walk, min_def, max_def]
  rw [roundHalfEven_eq_of_lt 13000 (by norm_num) (by norm_num)]
  norm_num

theorem tax_old_regime_registered (ti : ℚ) (fy : String)
    (h1 : TenE.SLABS_OLD fy = some TenE.OLD_SLABS)
    (h2 : TenE.REBATE_87A fy = some (500000, true)) :
    TenE.tax_old_regime ti fy =
      .ok ((roundHalfEven
        ((if ti ≤ 500000 then 0 else slab_walk ti 0 TenE.OLD_SLABS) +
          (if ti ≤ 500000 then 0 else slab_walk ti 0 TenE.OLD_SLABS) * (4/100)) : ℤ) : ℚ) := by
  unfold TenE.tax_old_regime
  rw [h1, h2]
  simp [TenE.OLD_SLABS, List.isEmpty]

/-- The value `tax_old_regime` returns for any of the six registered
years (they all share the same table and rebate rule). -/
def tenE_supported_tax (ti : ℚ) : ℚ :=
  ((roundHalfEven
    ((if ti ≤ 500000 then 0 else slab_walk ti 0 TenE.OLD_SLABS) +
      (if ti ≤ 500000 then 0 else slab_walk ti 0 TenE.OLD_SLABS) * (4/100)) : ℤ) : ℚ)

theorem tax_old_regime_eq_supported (ti : ℚ) (fy : String)
    (h1 : TenE.SLABS_OLD fy = some TenE.OLD_SLABS)
    (h2 : TenE.REBATE_87A fy = some (500000, true)) :
    TenE.tax_old_regime ti fy = .ok (tenE_supported_tax ti) :=
  tax_old_regime_registered ti fy h1 h2

theorem registered_lookups :
    ∀ fy ∈ TenE.REGISTERED_YEARS,
      TenE.SLABS_OLD fy = some TenE.OLD_SLABS ∧
        TenE.REBATE_87A fy = some (500000, true) := by
  intro fy hfy
  simp [TenE.REGISTERED_YEARS] at hfy
  rcases hfy with rfl | rfl | rfl | rfl | rfl | rfl <;> exact ⟨rfl, rfl⟩

theorem tax_old_regime_unregistered (ti : ℚ) (fy : String)
    (h : TenE.SLABS_OLD fy = none) :
    TenE.tax_old_regime ti fy = .error .UnsupportedYear := by
  unfold TenE.tax_old_regime
  rw [h]

theorem old_slabs_sorted : sortedFrom (some 0) TenE.OLD_SLABS = true := by
  norm_num [sortedFrom, boundLe, TenE.OLD_SLABS]

theorem old_slabs_rates : ratesNonneg TenE.OLD_SLABS = true := by
  norm_num [ratesNonneg, TenE.OLD_SLABS]

theorem tenE_supported_tax_zero : tenE_supported_tax 0 = 0 := by
  unfold tenE_supported_tax
  norm_num
  rw [roundHalfEven_zero]

theorem tenE_supported_tax_600000 : tenE_supported_tax 600000 = 33800 := by
  unfold tenE_supported_tax
  norm_num [slab_walk, min_def, max_def, TenE.OLD_SLABS]
  rw [roundHalfEven_eq_of_lt 33800 (by norm_num) (by norm_num)]
  norm_num

theorem tenE_supported_tax_mono {t1 t2 : ℚ} (h : t1 ≤ t2) :
    tenE_supported_tax t1 ≤ tenE_supported_tax t2 := by
  unfold tenE_supported_tax
  have hm := rebated_mono h 500000 TenE.OLD_SLABS old_slabs_sorted old_slabs_rates
  have := roundHalfEven_mono (a :=
      (if t1 ≤ 500000 then 0 else slab_walk t1 0 TenE.OLD_SLABS) +
        (if t1 ≤ 500000 then 0 else slab_walk t1 0 TenE.OLD_SLABS) * (4/100))
    (b :=
      (if t2 ≤ 500000 then 0 else slab_walk t2 0 TenE.OLD_SLABS) +
        (if t2 ≤ 500000 then 0 else slab_walk t2 0 TenE.OLD_SLABS) * (4/100))
    (by linarith)
  exact_mod_cast this

theorem tenE_supported_tax_500000 : tenE_supported_tax 500000 = 0 := by
  unfold tenE_supported_tax
  norm_num
  rw [roundHalfEven_zero]

/-!
Claim C1.  The spec's scenario formula for income 600,000,
`round((100,000×0.05 + 100,000×0.20)×1.04)` = 26,000, does not match the
§4.1 slab algorithm, which taxes the whole 250,000-wide 5% band:
`round((250,000×0.05 + 100,000×0.20)×1.04)` = 33,800.  The income-500,000
half of the claim is correct.
-/

/-- Claim C1 (counterexample): `computeTax(600000)` is not the literal
integer `round((100,000×0.05 + 100,000×0.20)×1.04)` claimed (26,000);
the slab algorithm yields 33,800. -/
theorem c1_counterexample :
    Form10e.compute_tax 600000 ≠
      ((roundHalfEven ((100000 * (5/100) + 100000 * (20/100)) * (104/100)) : ℤ) : ℚ) := by
  rw [form10e_eq_advanced_old, compute_tax_old_600000,
    roundHalfEven_eq_of_lt 26000 (by norm_num) (by norm_num)]
  norm_num

/-- Claim C1 (amended): for the old-regime computation of all three
modules, `computeTax(500000) = 0` and `computeTax(600000)` equals
`round((250,000×0.05 + 100,000×0.20)×1.04) = 33800` — the literal
integer result of the §4.1 slab algorithm (the 5% band spans
250,000–500,000, so its full width of 250,000 is taxed, not 100,000). -/
theorem c1_amended :
    Form10e.compute_tax 500000 = 0 ∧
    Advanced.compute_tax_old 500000 = 0 ∧
    TenE.tax_old_regime 500000 "FY2021-22" = .ok 0 ∧
    Form10e.compute_tax 600000 = 33800 ∧
    Advanced.compute_tax_old 600000 = 33800 ∧
    TenE.tax_old_regime 600000 "FY2021-22" = .ok 33800 ∧
    (33800 : ℚ) =
      ((roundHalfEven ((250000 * (5/100) + 100000 * (20/100)) * (104/100)) : ℤ) : ℚ) := by
  refine ⟨?_, compute_tax_old_500000, ?_, ?_, compute_tax_old_600000, ?_, ?_⟩
  · rw [form10e_eq_advanced_old]; exact compute_tax_old_500000
  · rw [tax_old_regime_eq_supported 500000 "FY2021-22" rfl rfl, tenE_supported_tax_500000]
  · rw [form10e_eq_advanced_old]; exact compute_tax_old_600000
  · rw [tax_old_regime_eq_supported 600000 "FY2021-22" rfl rfl, tenE_supported_tax_600000]
  · rw [roundHalfEven_eq_of_lt 33800 (by norm_num) (by norm_num)]
    norm_num

/-!
Claim C9.  The short-circuited slab walk equals the full fold over every
slab of the table, for every income, every starting bound and every slab
table with monotonically increasing bounds (§4.1 step 1's definition of
a slab table).
-/

/-- Claim C9: for every income and every slab table (monotonically
increasing bounds, per §4.1), the break-early slab walk computes the same
tax as evaluating every slab: all slabs above the covering one
contribute zero. -/
theorem c9_short_circuit_eq_full (ti prev : ℚ) (slabs : List (Option ℚ × ℚ))
    (hs : sortedFrom (some prev) slabs = true) :
    slab_walk ti prev slabs = slab_full ti (some prev) slabs :=
  slab_walk_eq_full ti slabs prev hs

/-- Claim C9 witness: the equivalence applied to the concrete old-regime
table at income 600,000. -/
theorem c9_witness :
    slab_walk 600000 0 Form10e.SLABS = slab_full 600000 (some 0) Form10e.SLABS :=
  c9_short_circuit_eq_full 600000 0 Form10e.SLABS
    (by norm_num [sortedFrom, boundLe, Form10e.SLABS])

/-! Rebate-zeroing helpers used by claims C5 and C10. -/

theorem compute_tax_old_rebate {ti : ℚ} (h : ti ≤ 500000) :
    Advanced.compute_tax_old ti = 0 := by
  simp only [Advanced.compute_tax_old, if_pos h]
  norm_num [roundHalfEven_zero]

theorem compute_tax_new_legacy_rebate {ti : ℚ} (h : ti ≤ 700000) :
    Advanced.compute_tax_new_legacy ti = 0 := by
  simp only [Advanced.compute_tax_new_legacy, if_pos h]
  norm_num [roundHalfEven_zero]

theorem compute_tax_new_2025_zero_bracket {ti : ℚ} (h : ti ≤ 400000) :
    Advanced.compute_tax_new_2025 ti = 0 := by
  simp only [Advanced.compute_tax_new_2025, Advanced.tax2025val, if_pos h]
  norm_num [roundHalfEven_zero]

theorem tenE_supported_tax_rebate {ti : ℚ} (h : ti ≤ 500000) :
    tenE_supported_tax ti = 0 := by
  simp only [tenE_supported_tax, if_pos h]
  norm_num [roundHalfEven_zero]

/-!
Claim C5.  For every supported regime/year and every income at or below
that regime/year's rebate threshold (old regime and the tenE registered
years: 5,00,000; legacy new regime: 7,00,000; the FY2025-26 formula's
zero bracket: 4,00,000), the computed tax is exactly 0.
-/

/-- Claim C5: incomes at or below the applicable rebate threshold
(old: 500,000 — also each tenE registered year; legacy new: 700,000;
FY2025-26 formula zero bracket: 400,000) are taxed exactly 0. -/
theorem c5_rebate_zero (ti : ℚ) :
    (ti ≤ 500000 →
      Form10e.compute_tax ti = 0 ∧
      Advanced.compute_tax_old ti = 0 ∧
      ∀ fy ∈ TenE.REGISTERED_YEARS, TenE.tax_old_regime ti fy = .ok 0) ∧
    (ti ≤ 700000 → Advanced.compute_tax_new_legacy ti = 0) ∧
    (ti ≤ 400000 → Advanced.compute_tax_new_2025 ti = 0) := by
  refine ⟨fun h => ⟨?_, compute_tax_old_rebate h, fun fy hfy => ?_⟩,
    fun h => compute_tax_new_legacy_rebate h,
    fun h => compute_tax_new_2025_zero_bracket h⟩
  · rw [form10e_eq_advanced_old]; exact compute_tax_old_rebate h
  · obtain ⟨h1, h2⟩ := registered_lookups fy hfy
    rw [tax_old_regime_eq_supported ti fy h1 h2, tenE_supported_tax_rebate h]

/-- Claim C5 witness: the rebate thresholds themselves are taxed 0. -/
theorem c5_witness :
    Form10e.compute_tax 500000 = 0 ∧
    TenE.tax_old_regime 500000 "FY2019-20" = .ok 0 ∧
    Advanced.compute_tax_new_legacy 700000 = 0 ∧
    Advanced.compute_tax_new_2025 400000 = 0 :=
  ⟨((c5_rebate_zero 500000).1 (by norm_num)).1,
   ((c5_rebate_zero 500000).1 (by norm_num)).2.2 "FY2019-20"
     (by simp [TenE.REGISTERED_YEARS]),
   (c5_rebate_zero 700000).2.1 (by norm_num),
   (c5_rebate_zero 400000).2.2 (by norm_num)⟩

/-!
Claim C10.  For income ≤ 0 every year-independent tax variant returns 0,
and `tax_old_regime` returns 0 for every registered year — but
`tax_old_regime` is not total: for an unregistered year it fails with
`UnsupportedYear` regardless of the income, so "every tax-computation
variant is total" does not hold as stated.
-/

/-- Claim C10 (counterexample): income 0 (within the claimed `income ≤ 0`
range) with an unregistered fiscal year makes `tax_old_regime` fail with
`UnsupportedYear` instead of returning 0 — the variant is not total. -/
theorem c10_counterexample :
    TenE.tax_old_regime 0 "FY1800-01" = .error TaxError.UnsupportedYear :=
  tax_old_regime_unregistered 0 "FY1800-01" rfl

/-- Claim C10 (amended): for every income ≤ 0, each year-independent tax
variant returns exactly 0 (negative incomes fall inside the zero-rate
first slab or zero bracket and rebate/cess/rounding preserve the zero),
and `tax_old_regime` returns exactly 0 for every registered year; for an
unregistered year it fails with `UnsupportedYear` regardless of income. -/
theorem c10_amended (ti : ℚ) (h : ti ≤ 0) :
    Form10e.compute_tax ti = 0 ∧
    Advanced.compute_tax_old ti = 0 ∧
    Advanced.compute_tax_new_legacy ti = 0 ∧
    Advanced.compute_tax_new_2025 ti = 0 ∧
    (∀ (r : Advanced.Regime) (fy : String), Advanced.compute_tax ti r fy = 0) ∧
    (∀ fy ∈ TenE.REGISTERED_YEARS, TenE.tax_old_regime ti fy = .ok 0) ∧
    (∀ fy, TenE.SLABS_OLD fy = none →
      TenE.tax_old_regime ti fy = .error .UnsupportedYear) := by
  have h5 : ti ≤ 500000 := by linarith
  refine ⟨?_, compute_tax_old_rebate h5,
    compute_tax_new_legacy_rebate (by linarith),
    compute_tax_new_2025_zero_bracket (by linarith),
    fun r fy => ?_, fun fy hfy => ?_, fun fy hn => tax_old_regime_unregistered ti fy hn⟩
  · rw [form10e_eq_advanced_old]; exact compute_tax_old_rebate h5
  · cases r with
    | old => exact compute_tax_old_rebate h5
    | new =>
      unfold Advanced.compute_tax
      split_ifs
      · exact compute_tax_new_2025_zero_bracket (by linarith)
      · exact compute_tax_new_legacy_rebate (by linarith)
  · obtain ⟨h1, h2⟩ := registered_lookups fy hfy
    rw [tax_old_regime_eq_supported ti fy h1 h2, tenE_supported_tax_rebate h5]

/-- Claim C10 witness: the amended statement at income −1 and
representative years. -/
theorem c10_witness :
    Form10e.compute_tax (-1) = 0 ∧
    Advanced.compute_tax (-1) Advanced.Regime.new "FY2025-26" = 0 ∧
    TenE.tax_old_regime (-1) "FY2024-25" = .ok 0 :=
  ⟨(c10_amended (-1) (by norm_num)).1,
   (c10_amended (-1) (by norm_num)).2.2.2.2.1 Advanced.Regime.new "FY2025-26",
   (c10_amended (-1) (by norm_num)).2.2.2.2.2.1 "FY2024-25"
     (by simp [TenE.REGISTERED_YEARS])⟩

/-! Monotonicity of each tax engine (claim C6). -/

theorem cast_round_cess_mono {a b : ℚ} (h : a ≤ b) :
    ((roundHalfEven (a * (104/100)) : ℤ) : ℚ) ≤
      ((roundHalfEven (b * (104/100)) : ℤ) : ℚ) := by
  have := roundHalfEven_mono
    (mul_le_mul_of_nonneg_right h (by norm_num : (0:ℚ) ≤ 104/100))
  exact_mod_cast this

theorem compute_tax_old_mono {t1 t2 : ℚ} (h : t1 ≤ t2) :
    Advanced.compute_tax_old t1 ≤ Advanced.compute_tax_old t2 := by
  simp only [Advanced.compute_tax_old]
  exact cast_round_cess_mono (rebated_mono h 500000 _
    (by norm_num [sortedFrom, boundLe]) (by norm_num [ratesNonneg]))

theorem compute_tax_new_legacy_mono {t1 t2 : ℚ} (h : t1 ≤ t2) :
    Advanced.compute_tax_new_legacy t1 ≤ Advanced.compute_tax_new_legacy t2 := by
  simp only [Advanced.compute_tax_new_legacy]
  exact cast_round_cess_mono (rebated_mono h 700000 _
    (by norm_num [sortedFrom, boundLe]) (by norm_num [ratesNonneg]))

set_option maxHeartbeats 1600000 in
theorem tax2025val_mono {t1 t2 : ℚ} (h : t1 ≤ t2) :
    Advanced.tax2025val t1 ≤ Advanced.tax2025val t2 := by
  unfold Advanced.tax2025val
  split_ifs <;> linarith

theorem compute_tax_new_2025_mono {t1 t2 : ℚ} (h : t1 ≤ t2) :
    Advanced.compute_tax_new_2025 t1 ≤ Advanced.compute_tax_new_2025 t2 := by
  unfold Advanced.compute_tax_new_2025
  exact cast_round_cess_mono (tax2025val_mono h)

theorem compute_tax_adv_mono (r : Advanced.Regime) (fy : String)
    {t1 t2 : ℚ} (h : t1 ≤ t2) :
    Advanced.compute_tax t1 r fy ≤ Advanced.compute_tax t2 r fy := by
  cases r with
  | old => exact compute_tax_old_mono h
  | new =>
    unfold Advanced.compute_tax
    split_ifs
    · exact compute_tax_new_2025_mono h
    · exact compute_tax_new_legacy_mono h

theorem compute_tax_new_legacy_700001 :
    Advanced.compute_tax_new_legacy 700001 = 26000 := by
  unfold Advanced.compute_tax_new_legacy
  norm_num [slab_walk, min_def, max_def]
  rw [roundHalfEven_eq_of_lt 26000 (by norm_num) (by norm_num)]
  norm_num

/-!
Claim C6.  Each tax engine is monotone in income — including across the
rebate threshold, where the tax jumps from 0 to a positive amount (the
discontinuity is in the tax *value*, not a violation of monotonicity).
The explicit threshold tests hold at the two rebate rules (old: 500,000;
legacy new: 700,000); the FY2025-26 formula has no rebate rule (§4.1:
"no rebate rule beyond its own zero-bracket") and is continuous at its
zero bracket.
-/

/-- Claim C6: for incomes `t1 < t2` under the same regime and fiscal
year, `computeTax(t1) ≤ computeTax(t2)` for every variant, and at the
rebate thresholds the discontinuity is as claimed:
`computeTax(threshold) = 0 < computeTax(threshold + 1)`. -/
theorem c6_monotone :
    (∀ (r : Advanced.Regime) (fy : String) (t1 t2 : ℚ), t1 < t2 →
        Advanced.compute_tax t1 r fy ≤ Advanced.compute_tax t2 r fy) ∧
    (∀ t1 t2 : ℚ, t1 < t2 → Form10e.compute_tax t1 ≤ Form10e.compute_tax t2) ∧
    (∀ fy ∈ TenE.REGISTERED_YEARS, ∀ t1 t2 a b : ℚ, t1 < t2 →
        TenE.tax_old_regime t1 fy = .ok a →
        TenE.tax_old_regime t2 fy = .ok b → a ≤ b) ∧
    (Advanced.compute_tax_old 500000 = 0 ∧ 0 < Advanced.compute_tax_old 500001) ∧
    (Advanced.compute_tax_new_legacy 700000 = 0 ∧
      0 < Advanced.compute_tax_new_legacy 700001) := by
  refine ⟨fun r fy t1 t2 h => compute_tax_adv_mono r fy h.le,
    fun t1 t2 h => ?_, fun fy hfy t1 t2 a b h ha hb => ?_,
    ⟨compute_tax_old_500000, ?_⟩,
    ⟨compute_tax_new_legacy_rebate (by norm_num), ?_⟩⟩
  · rw [form10e_eq_advanced_old, form10e_eq_advanced_old]
    exact compute_tax_old_mono h.le
  · obtain ⟨h1, h2⟩ := registered_lookups fy hfy
    rw [tax_old_regime_eq_supported t1 fy h1 h2] at ha
    rw [tax_old_regime_eq_supported t2 fy h1 h2] at hb
    simp only [Except.ok.injEq] at ha hb
    rw [← ha, ← hb]
    exact tenE_supported_tax_mono h.le
  · rw [compute_tax_old_500001]; norm_num
  · rw [compute_tax_new_legacy_700001]; norm_num

/-- Claim C6 witness: monotonicity instantiated at concrete incomes
100 < 600,000 for each variant. -/
theorem c6_witness :
    Advanced.compute_tax 100 Advanced.Regime.old "FY2024-25" ≤
      Advanced.compute_tax 600000 Advanced.Regime.old "FY2024-25" ∧
    Form10e.compute_tax 100 ≤ Form10e.compute_tax 600000 ∧
    (0 : ℚ) ≤ 33800 :=
  ⟨c6_monotone.1 Advanced.Regime.old "FY2024-25" 100 600000 (by norm_num),
   c6_monotone.2.1 100 600000 (by norm_num),
   c6_monotone.2.2.1 "FY2021-22" (by simp [TenE.REGISTERED_YEARS])
     500000 600000 0 33800 (by norm_num)
     (by rw [tax_old_regime_eq_supported 500000 "FY2021-22" rfl rfl,
       tenE_supported_tax_500000])
     (by rw [tax_old_regime_eq_supported 600000 "FY2021-22" rfl rfl,
       tenE_supported_tax_600000])⟩

theorem compute_tax_new_legacy_1000000 :
    Advanced.compute_tax_new_legacy 1000000 = 62400 := by
  unfold Advanced.compute_tax_new_legacy
  norm_num [slab_walk, min_def, max_def]
  rw [roundHalfEven_eq_of_lt 62400 (by norm_num) (by norm_num)]
  norm_num

/-!
Claim C3.  Only the `tenE_relief.py` engine fails with `UnsupportedYear`
for an unregistered year.  The advanced engine is total: for the old
regime it always uses the fixed old table, and for the new regime it
silently defaults every fiscal year other than `"FY2025-26"` — registered
or not — to the legacy table, exactly the defaulting the claim rules out.
-/

/-- Claim C3 (counterexample): the advanced `compute_tax` does not fail
for the unregistered pair (new, `"FY1900-01"`): it silently computes the
legacy-table tax, 62,400 at income 1,000,000. -/
theorem c3_counterexample :
    Advanced.compute_tax 1000000 Advanced.Regime.new "FY1900-01" =
        Advanced.compute_tax_new_legacy 1000000 ∧
      Advanced.compute_tax 1000000 Advanced.Regime.new "FY1900-01" = 62400 :=
  ⟨rfl, by
    rw [show Advanced.compute_tax 1000000 Advanced.Regime.new "FY1900-01" =
        Advanced.compute_tax_new_legacy 1000000 from rfl,
      compute_tax_new_legacy_1000000]⟩

/-- Claim C3 (amended): the tenE engine fails with `UnsupportedYear` for
every fiscal year with no registered slab table, and `compute_10e`
surfaces that failure (shown in slab mode with the first affected year
unregistered, once the arrears validation passes); the advanced engine
never fails — a new-regime year other than `"FY2025-26"` is silently
computed with the legacy table. -/
theorem c3_amended :
    (∀ (ti : ℚ) (fy : String), TenE.SLABS_OLD fy = none →
      TenE.tax_old_regime ti fy = .error .UnsupportedYear) ∧
    (∀ (data : TenE.TenEInput) (y : TenE.YearInput) (rest : List TenE.YearInput),
      data.affected_years = y :: rest →
      data.mode = .slab_mode →
      TenE.SLABS_OLD y.fy = none →
      round2 data.arrears_total_received =
        round2 ((data.affected_years.map TenE.YearInput.arrears_for_this_year).sum) →
      TenE.compute_10e data = .error .UnsupportedYear) ∧
    (∀ (ti : ℚ) (fy : String), fy ≠ "FY2025-26" →
      Advanced.compute_tax ti Advanced.Regime.new fy =
        Advanced.compute_tax_new_legacy ti) := by
  refine ⟨fun ti fy hn => tax_old_regime_unregistered ti fy hn, ?_, fun ti fy hfy => ?_⟩
  · rintro ⟨rfy, ci, ta, ys, mode⟩ y rest hyears hmode hn heq
    simp only at hyears hmode heq
    subst hyears hmode
    have h1 := tax_old_regime_unregistered y.base_taxable_without_arrears y.fy hn
    have h2 : TenE.compute_tax_for_year y.fy y.base_taxable_without_arrears
        .slab_mode y.manual_tax_without_arrears = .error .UnsupportedYear := by
      simp [TenE.compute_tax_for_year, h1]
    simp only [TenE.compute_10e]
    rw [if_neg (by simp [heq])]
    simp [TenE.calc_years, TenE.year_calc, h2]
  · unfold Advanced.compute_tax
    rw [if_neg hfy]

/-- Claim C3 witness: the amended statement at a concrete unregistered
year, a concrete `compute_10e` input, and a concrete defaulted year. -/
theorem c3_witness :
    TenE.tax_old_regime 123 "FY1901-02" = .error TaxError.UnsupportedYear ∧
    TenE.compute_10e
        ⟨"FY1901-02", 0, 0, [⟨"FY1901-02", 0, 0, none, none⟩], .slab_mode⟩ =
      .error TaxError.UnsupportedYear ∧
    Advanced.compute_tax 5 Advanced.Regime.new "FY1902-03" =
      Advanced.compute_tax_new_legacy 5 :=
  ⟨c3_amended.1 123 "FY1901-02" rfl,
   c3_amended.2.1 ⟨"FY1901-02", 0, 0, [⟨"FY1901-02", 0, 0, none, none⟩], .slab_mode⟩
     ⟨"FY1901-02", 0, 0, none, none⟩ [] rfl rfl rfl (by norm_num),
   c3_amended.2.2 5 "FY1902-03" (by decide)⟩

/-!
Claim C7.  The advanced `compute_relief` uses a present manual override
verbatim, unconditionally.  The tenE `compute_tax_for_year`, however,
honours an override only in `"manual-tax"` mode: in `"slab-mode"` a
present override is ignored and the engine is invoked anyway, so the
claim fails as a statement about every variant.
-/

/-- Claim C7 (counterexample): a tenE run in slab mode with manual
overrides of 123 present returns the engine's figure 33,800 for the
year's taxes, not the override: `computeRelief` did not use the present
override verbatim. -/
theorem c7_counterexample :
    TenE.compute_10e
        ⟨"FY2021-22", 0, 0, [⟨"FY2021-22", 600000, 0, some 123, some 123⟩],
          .slab_mode⟩ =
      .ok ⟨[⟨"FY2021-22", 33800, 33800, 0⟩], ⟨"FY2021-22", 0, 0, 0⟩, 0⟩ ∧
    (33800 : ℚ) ≠ 123 := by
  constructor
  · have e600 : TenE.tax_old_regime 600000 "FY2021-22" = .ok 33800 := by
      rw [tax_old_regime_eq_supported 600000 "FY2021-22" rfl rfl,
        tenE_supported_tax_600000]
    have e0 : TenE.tax_old_regime 0 "FY2021-22" = .ok 0 := by
      rw [tax_old_regime_eq_supported 0 "FY2021-22" rfl rfl,
        tenE_supported_tax_rebate (by norm_num)]
    simp only [TenE.compute_10e]
    rw [if_neg (by norm_num)]
    simp [TenE.calc_years, TenE.year_calc, TenE.compute_tax_for_year,
      e600, e0, roundHalfEven_zero]
  · norm_num

/-- Claim C7 (amended): the advanced `compute_relief` uses a present
manual override verbatim for the corresponding tax figure (no
re-validation) and invokes the engine when it is absent; the tenE
variant does so only in manual-tax mode — in slab mode a present
override is ignored and the engine is always invoked. -/
theorem c7_amended :
    (∀ (y : Advanced.YearData) (v : ℚ), y.manual_tax_wo = some v →
      (Advanced.fill_year y).tax_wo = v) ∧
    (∀ (y : Advanced.YearData) (v : ℚ), y.manual_tax_w = some v →
      (Advanced.fill_year y).tax_w = v) ∧
    (∀ y : Advanced.YearData, y.manual_tax_wo = none →
      (Advanced.fill_year y).tax_wo =
        Advanced.compute_tax y.base_income y.regime y.fy) ∧
    (∀ y : Advanced.YearData, y.manual_tax_w = none →
      (Advanced.fill_year y).tax_w =
        Advanced.compute_tax (y.base_income + y.arrears) y.regime y.fy) ∧
    (∀ (fy : String) (t v : ℚ),
      TenE.compute_tax_for_year fy t .manual_tax (some v) = .ok v) ∧
    (∀ (fy : String) (t : ℚ) (ov : Option ℚ),
      TenE.compute_tax_for_year fy t .slab_mode ov = TenE.tax_old_regime t fy) ∧
    (∀ (fy : String) (t : ℚ) (mode : TenE.Mode),
      TenE.compute_tax_for_year fy t mode none = TenE.tax_old_regime t fy) := by
  refine ⟨fun y v h => by simp [Advanced.fill_year, h],
    fun y v h => by simp [Advanced.fill_year, h],
    fun y h => by simp [Advanced.fill_year, h],
    fun y h => by simp [Advanced.fill_year, h],
    fun fy t v => rfl,
    fun fy t ov => rfl,
    fun fy t mode => ?_⟩
  cases mode <;> rfl

/-- Claim C7 witness: the amended override semantics at concrete inputs. -/
theorem c7_witness :
    (Advanced.fill_year
      ⟨"FY2024-25", 600000, 0, Advanced.Regime.old, some 111, none, 0, 0⟩).tax_wo = 111 ∧
    (Advanced.fill_year
      ⟨"FY2024-25", 600000, 0, Advanced.Regime.old, none, none, 0, 0⟩).tax_wo =
        Advanced.compute_tax 600000 Advanced.Regime.old "FY2024-25" ∧
    TenE.compute_tax_for_year "FY2021-22" 42 TenE.Mode.manual_tax (some 7) = .ok 7 ∧
    TenE.compute_tax_for_year "FY2021-22" 42 TenE.Mode.slab_mode (some 7) =
      TenE.tax_old_regime 42 "FY2021-22" :=
  ⟨c7_amended.1 ⟨"FY2024-25", 600000, 0, Advanced.Regime.old, some 111, none, 0, 0⟩ 111 rfl,
   c7_amended.2.2.1 ⟨"FY2024-25", 600000, 0, Advanced.Regime.old, none, none, 0, 0⟩ rfl,
   c7_amended.2.2.2.2.1 "FY2021-22" 42 7,
   c7_amended.2.2.2.2.2.1 "FY2021-22" 42 (some 7)⟩

/-- Erase the derived tax fields of a `YearData`, restoring their
constructed defaults; two records agree under `stripTax` exactly when
every caller-supplied field agrees. -/
def stripTax (y : Advanced.YearData) : Advanced.YearData :=
  { y with tax_wo := 0, tax_w := 0 }

/-!
Claim C8.  `compute_10e` builds fresh `YearCalc` records and leaves its
input untouched, but the advanced `compute_relief` writes the computed
taxes into the caller's `YearData` records (`y.tax_wo = ...`,
`y.tax_w = ...`) — the spec's "score-filling step" — so the year records
*are* mutated after construction.  The computation is still a
deterministic function of its inputs, and nothing besides those two
derived fields changes.
-/

/-- Claim C8 (counterexample): the year records handed to the advanced
`compute_relief` (constructed with default `tax_wo = tax_w = 0`) come
back with `tax_wo = tax_w = 33800` — in the source, `result["years"]` is
the caller's own list, mutated after construction. -/
theorem c8_counterexample :
    Advanced.compute_relief "FY2024-25" Advanced.Regime.old 0 0
        [⟨"FY2024-25", 600000, 0, Advanced.Regime.old, none, none, 0, 0⟩] =
      .ok ⟨[⟨"FY2024-25", 600000, 0, Advanced.Regime.old, none, none, 33800, 33800⟩],
        ⟨"FY2024-25", Advanced.Regime.old, 0, 0, 0⟩, 0⟩ ∧
    [(⟨"FY2024-25", 600000, 0, Advanced.Regime.old, none, none, 33800, 33800⟩ : Advanced.YearData)] ≠
      [⟨"FY2024-25", 600000, 0, Advanced.Regime.old, none, none, 0, 0⟩] := by
  constructor
  · have e1 : Advanced.compute_tax 600000 Advanced.Regime.old "FY2024-25" = 33800 :=
      compute_tax_old_600000
    have e2 : Advanced.compute_tax 0 Advanced.Regime.old "FY2024-25" = 0 :=
      compute_tax_old_rebate (by norm_num)
    simp only [Advanced.compute_relief]
    rw [if_neg (by norm_num)]
    simp [Advanced.fill_year, e1, e2, roundHalfEven_zero]
  · intro h
    simp only [List.cons.injEq, Advanced.YearData.mk.injEq] at h
    exact absurd h.1.2.2.2.2.2.2.1 (by norm_num)

/-- Claim C8 (amended): `computeRelief` is a pure function of its inputs,
and the only change the advanced variant makes to the caller's year
records is the explicit tax-filling step: every successful result's year
list is exactly `years.map fill_year`, and stripping the two derived tax
fields recovers the input records unchanged. -/
theorem c8_amended (receipt_fy : String) (receipt_regime : Advanced.Regime)
    (ci ta : ℚ) (ys : List Advanced.YearData) (res : Advanced.ReliefResult)
    (h : Advanced.compute_relief receipt_fy receipt_regime ci ta ys = .ok res) :
    res.years.map stripTax = ys.map stripTax ∧
    res.years = ys.map Advanced.fill_year := by
  simp only [Advanced.compute_relief] at h
  split at h
  · exact absurd h (by simp)
  · simp only [Except.ok.injEq] at h
    subst h
    refine ⟨?_, rfl⟩
    rw [List.map_map,
      show stripTax ∘ Advanced.fill_year = stripTax from funext fun y => rfl]

/-- Claim C8 witness: the frame condition at a concrete successful run. -/
theorem c8_witness :
    (Advanced.ReliefResult.years
        ⟨[], ⟨"FY2025-26", Advanced.Regime.new, 0, 0, 0⟩, 0⟩).map stripTax =
      ([] : List Advanced.YearData).map stripTax :=
  (c8_amended "FY2025-26" Advanced.Regime.new 0 0 []
    ⟨[], ⟨"FY2025-26", Advanced.Regime.new, 0, 0, 0⟩, 0⟩ (by
      have e : Advanced.compute_tax 0 Advanced.Regime.new "FY2025-26" = 0 :=
        compute_tax_new_2025_zero_bracket (by norm_num)
      simp only [Advanced.compute_relief]
      rw [if_neg (by norm_num)]
      simp [e, roundHalfEven_zero])).1

/-!
Claim C4.  For every input on which the relief computation succeeds, the
returned relief is `max(0, round(sum of per-year deltas − currentYearDelta))`,
hence never negative.
-/

/-- Claim C4: every successful relief result of either module satisfies
`relief = max(0, round(Σ per-year deltas − currentYearDelta))` — the
deltas read back from the result itself — and is therefore non-negative. -/
theorem c4_relief_formula :
    (∀ (rfy : String) (rr : Advanced.Regime) (ci ta : ℚ)
        (ys : List Advanced.YearData) (res : Advanced.ReliefResult),
      Advanced.compute_relief rfy rr ci ta ys = .ok res →
      res.relief = max 0 ((roundHalfEven
          ((res.years.map (fun y => y.tax_w - y.tax_wo)).sum - res.current.delta) : ℤ) : ℚ) ∧
        0 ≤ res.relief) ∧
    (∀ (data : TenE.TenEInput) (res : TenE.TenEResult),
      TenE.compute_10e data = .ok res →
      res.relief = max 0 ((roundHalfEven
          ((res.past_years.map TenE.YearCalc.delta).sum - res.current_year.delta) : ℤ) : ℚ) ∧
        0 ≤ res.relief) := by
  constructor
  · intro rfy rr ci ta ys res h
    simp only [Advanced.compute_relief] at h
    split at h
    · exact absurd h (by simp)
    · simp only [Except.ok.injEq] at h
      subst h
      exact ⟨rfl, le_max_left 0 _⟩
  · intro data res h
    simp only [TenE.compute_10e] at h
    split at h
    · exact absurd h (by simp)
    · split at h
      · exact absurd h (by simp)
      · split at h
        · exact absurd h (by simp)
        · split at h
          · exact absurd h (by simp)
          · simp only [Except.ok.injEq] at h
            subst h
            exact ⟨rfl, le_max_left 0 _⟩

/-- Claim C4 witness: the relief formula and non-negativity at concrete
successful runs of both modules. -/
theorem c4_witness :
    0 ≤ Advanced.ReliefResult.relief
        ⟨[], ⟨"FY2023-24", Advanced.Regime.new, 0, 0, 0⟩, 0⟩ ∧
    0 ≤ TenE.TenEResult.relief ⟨[], ⟨"FY2020-21", 0, 0, 0⟩, 0⟩ :=
  ⟨(c4_relief_formula.1 "FY2023-24" Advanced.Regime.new 0 0 []
      ⟨[], ⟨"FY2023-24", Advanced.Regime.new, 0, 0, 0⟩, 0⟩ (by
        have e : Advanced.compute_tax 0 Advanced.Regime.new "FY2023-24" = 0 := by
          rw [show Advanced.compute_tax 0 Advanced.Regime.new "FY2023-24" =
            Advanced.compute_tax_new_legacy 0 from rfl]
          exact compute_tax_new_legacy_rebate (by norm_num)
        simp only [Advanced.compute_relief]
        rw [if_neg (by norm_num)]
        simp [e, roundHalfEven_zero])).2,
   (c4_relief_formula.2 ⟨"FY2020-21", 0, 0, [], .slab_mode⟩
      ⟨[], ⟨"FY2020-21", 0, 0, 0⟩, 0⟩ (by
        have e0 : TenE.tax_old_regime 0 "FY2020-21" = .ok 0 := by
          rw [tax_old_regime_eq_supported 0 "FY2020-21" rfl rfl,
            tenE_supported_tax_rebate (by norm_num)]
        simp only [TenE.compute_10e]
        rw [if_neg (by norm_num)]
        simp [TenE.calc_years, TenE.compute_tax_for_year, e0,
          roundHalfEven_zero])).2⟩

/-! Error characterisation and rounding-tolerance lemmas for claim C2. -/

theorem abs_le_of_round2_eq {x y : ℚ} (h : round2 x = round2 y) :
    |x - y| ≤ 1/100 := by
  have hx := abs_sub_round2 x
  have hy := abs_sub_round2 y
  rw [h] at hx
  have hsplit := abs_add (x - round2 y) (round2 y - y)
  rw [show (x - round2 y) + (round2 y - y) = x - y from by ring] at hsplit
  rw [abs_sub_comm (round2 y) y] at hsplit
  linarith

theorem round2_ne_of_abs_gt {x y : ℚ} (h : 1/100 < |x - y|) :
    round2 x ≠ round2 y :=
  fun he => absurd (abs_le_of_round2_eq he) (by linarith)

theorem tax_old_regime_error {ti : ℚ} {fy : String} {e : TaxError}
    (h : TenE.tax_old_regime ti fy = .error e) : e = .UnsupportedYear := by
  unfold TenE.tax_old_regime at h
  split at h
  · simp_all
  · split_ifs at h
    simp_all

theorem compute_tax_for_year_error {fy : String} {taxable : ℚ}
    {mode : TenE.Mode} {ov : Option ℚ} {e : TaxError}
    (h : TenE.compute_tax_for_year fy taxable mode ov = .error e) :
    e = .UnsupportedYear := by
  cases mode with
  | manual_tax =>
    cases ov with
    | none => exact tax_old_regime_error h
    | some v => exact absurd h (by simp [TenE.compute_tax_for_year])
  | slab_mode =>
    cases ov with
    | none => exact tax_old_regime_error h
    | some v => exact tax_old_regime_error h

theorem year_calc_error {mode : TenE.Mode} {y : TenE.YearInput} {e : TaxError}
    (h : TenE.year_calc mode y = .error e) : e = .UnsupportedYear := by
  unfold TenE.year_calc at h
  split at h
  · rename_i e' heq
    simp only [Except.error.injEq] at h
    subst h
    exact compute_tax_for_year_error heq
  · split at h
    · rename_i e' heq
      simp only [Except.error.injEq] at h
      subst h
      exact compute_tax_for_year_error heq
    · exact absurd h (by simp)

theorem calc_years_error {mode : TenE.Mode} {e : TaxError} :
    ∀ {ys : List TenE.YearInput}, TenE.calc_years mode ys = .error e →
      e = .UnsupportedYear := by
  intro ys
  induction ys with
  | nil => intro h; exact absurd h (by simp [TenE.calc_years])
  | cons y rest ih =>
    intro h
    unfold TenE.calc_years at h
    split at h
    · rename_i e' heq
      simp only [Except.error.injEq] at h
      subst h
      exact year_calc_error heq
    · split at h
      · rename_i e' heq
        simp only [Except.error.injEq] at h
        subst h
        exact ih heq
      · exact absurd h (by simp)

theorem compute_relief_mismatch_iff (rfy : String) (rr : Advanced.Regime)
    (ci ta : ℚ) (ys : List Advanced.YearData) :
    Advanced.compute_relief rfy rr ci ta ys =
        .error (.ArrearsMismatch ta (round2 ((ys.map Advanced.YearData.arrears).sum))) ↔
      round2 ta ≠ round2 ((ys.map Advanced.YearData.arrears).sum) := by
  constructor
  · intro h
    simp only [Advanced.compute_relief] at h
    split at h
    · assumption
    · exact absurd h (by simp)
  · intro hne
    simp only [Advanced.compute_relief]
    rw [if_pos hne]

theorem compute_10e_mismatch_iff (data : TenE.TenEInput) :
    TenE.compute_10e data =
        .error (.ArrearsMismatch data.arrears_total_received
          (round2 ((data.affected_years.map TenE.YearInput.arrears_for_this_year).sum))) ↔
      round2 data.arrears_total_received ≠
        round2 ((data.affected_years.map TenE.YearInput.arrears_for_this_year).sum) := by
  constructor
  · intro h
    simp only [TenE.compute_10e] at h
    split at h
    · assumption
    · exfalso
      split at h
      · rename_i e heq
        rw [calc_years_error heq] at h
        exact absurd h (by simp)
      · split at h
        · rename_i e heq
          rw [compute_tax_for_year_error heq] at h
          exact absurd h (by simp)
        · split at h
          · rename_i e heq
            rw [compute_tax_for_year_error heq] at h
            exact absurd h (by simp)
          · exact absurd h (by simp)
  · intro hne
    simp only [TenE.compute_10e]
    rw [if_pos hne]

/-!
Claim C2.  The source validates `round(total, 2) != round(sum, 2)`, which
is *not* the same predicate as `|sum − total| > 0.01`: a difference
beyond 0.01 always fails (two values rounding to the same cent are at
most 0.01 apart), but some pairs within the 0.01 tolerance round to
different cents and fail anyway — e.g. 0.004 vs 0.006, only 0.002 apart.
-/

/-- Claim C2 (counterexample): totals 0.004 received vs 0.006 mapped are
within the claimed 0.01 tolerance yet `compute_relief` fails with
`ArrearsMismatch` (0.004 rounds to 0.00, 0.006 to 0.01). -/
theorem c2_counterexample :
    |(3/500 : ℚ) - 1/250| ≤ 1/100 ∧
    Advanced.compute_relief "FY2024-25" Advanced.Regime.old 0 (1/250)
        [⟨"FY2024-25", 0, 3/500, Advanced.Regime.old, none, none, 0, 0⟩] =
      .error (.ArrearsMismatch (1/250) (1/100)) := by
  have h1 : round2 (1/250 : ℚ) = 0 := by
    unfold round2
    rw [show (1/250 : ℚ) * 100 = 2/5 from by norm_num,
      roundHalfEven_eq_of_lt 0 (by norm_num) (by norm_num)]
    norm_num
  have h2 : round2 ((3/500 : ℚ) + 0) = 1/100 := by
    unfold round2
    rw [show ((3/500 : ℚ) + 0) * 100 = 3/5 from by norm_num,
      roundHalfEven_eq_of_gt 0 (by norm_num) (by norm_num)]
    norm_num
  constructor
  · rw [show (3/500 : ℚ) - 1/250 = 1/500 from by norm_num,
      abs_of_pos (by norm_num : (0:ℚ) < 1/500)]
    norm_num
  · simp only [Advanced.compute_relief, List.map_cons, List.map_nil,
      List.sum_cons, List.sum_nil]
    rw [h1, h2, if_pos (by norm_num)]

/-- Claim C2 (amended): `computeRelief` fails with
`ArrearsMismatch(received, mapped)` — before any tax figure enters the
result — exactly when the totals round to different cents,
`round2(totalArrears) ≠ round2(Σ arrears)`.  A difference beyond the 0.01
tolerance always fails, but rounding to different cents can also occur
within the tolerance.  For the advanced module, equal rounded totals
guarantee success. -/
theorem c2_amended :
    (∀ (rfy : String) (rr : Advanced.Regime) (ci ta : ℚ)
        (ys : List Advanced.YearData),
      Advanced.compute_relief rfy rr ci ta ys =
          .error (.ArrearsMismatch ta (round2 ((ys.map Advanced.YearData.arrears).sum))) ↔
        round2 ta ≠ round2 ((ys.map Advanced.YearData.arrears).sum)) ∧
    (∀ (rfy : String) (rr : Advanced.Regime) (ci ta : ℚ)
        (ys : List Advanced.YearData),
      1/100 < |ta - (ys.map Advanced.YearData.arrears).sum| →
      Advanced.compute_relief rfy rr ci ta ys =
        .error (.ArrearsMismatch ta (round2 ((ys.map Advanced.YearData.arrears).sum)))) ∧
    (∀ (rfy : String) (rr : Advanced.Regime) (ci ta : ℚ)
        (ys : List Advanced.YearData),
      round2 ta = round2 ((ys.map Advanced.YearData.arrears).sum) →
      ∃ res, Advanced.compute_relief rfy rr ci ta ys = .ok res) ∧
    (∀ data : TenE.TenEInput,
      TenE.compute_10e data =
          .error (.ArrearsMismatch data.arrears_total_received
            (round2 ((data.affected_years.map TenE.YearInput.arrears_for_this_year).sum))) ↔
        round2 data.arrears_total_received ≠
          round2 ((data.affected_years.map TenE.YearInput.arrears_for_this_year).sum)) ∧
    (∀ data : TenE.TenEInput,
      1/100 < |data.arrears_total_received -
          (data.affected_years.map TenE.YearInput.arrears_for_this_year).sum| →
      TenE.compute_10e data =
        .error (.ArrearsMismatch data.arrears_total_received
          (round2 ((data.affected_years.map TenE.YearInput.arrears_for_this_year).sum)))) := by
  refine ⟨compute_relief_mismatch_iff, fun rfy rr ci ta ys h => ?_, 
    fun rfy rr ci ta ys h => ?_, compute_10e_mismatch_iff, fun data h => ?_⟩
  · exact (compute_relief_mismatch_iff rfy rr ci ta ys).mpr (round2_ne_of_abs_gt h)
  · simp only [Advanced.compute_relief]
    rw [if_neg (by simp [h])]
    exact ⟨_, rfl⟩
  · exact (compute_10e_mismatch_iff data).mpr (round2_ne_of_abs_gt h)

/-- Claim C2 witness: a difference of 1 unit (beyond tolerance) fails for
both modules, and equal rounded totals succeed for the advanced module. -/
theorem c2_witness :
    Advanced.compute_relief "FY2023-24" Advanced.Regime.old 0 1 [] =
        .error (.ArrearsMismatch 1 (round2 (([] : List Advanced.YearData).map Advanced.YearData.arrears).sum)) ∧
    (∃ res, Advanced.compute_relief "FY2023-24" Advanced.Regime.old 0 0 [] = .ok res) ∧
    TenE.compute_10e ⟨"FY2020-21", 0, 1, [], .slab_mode⟩ =
      .error (.ArrearsMismatch 1
        (round2 (([] : List TenE.YearInput).map TenE.YearInput.arrears_for_this_year).sum)) :=
  ⟨c2_amended.2.1 "FY2023-24" Advanced.Regime.old 0 1 []
     (by norm_num),
   c2_amended.2.2.1 "FY2023-24" Advanced.Regime.old 0 0 [] (by norm_num),
   c2_amended.2.2.2.2 ⟨"FY2020-21", 0, 1, [], .slab_mode⟩ (by norm_num)⟩
